import Mathlib

/-!
Shallow embedding of `src/main.rs` of simple-wayland-window: a minimal
Wayland client.  Protocol object handles are modelled as `Nat` identifiers
allocated from a fresh-id counter that is threaded next to the application
state (the wayland-client library allocates object ids; the Rust struct
itself only stores the handles).  Each Rust `Dispatch::event` handler
becomes a Lean function from state and event to an optional pair of new
state and the list of outgoing protocol requests / side effects it issues,
in order; `none` models a panic (a failing `unwrap()`).
-/

namespace WaylandWindow

/-- Mirrors `struct AppState` of `src/main.rs`. -/
structure AppState where
  running : Bool
  base_surface : Option Nat
  buffer : Option Nat
  wm_base : Option Nat
  xdg_surface : Option (Nat × Nat)
  configured : Bool
  deriving Repr, DecidableEq

/-- Outgoing protocol requests and other observable side effects, in the
order the handlers issue them.  `writeShm` records the bytes the `draw`
call writes into the shared-memory backing file; `logKey` records the
`println!` in the keyboard handler. -/
inductive Req where
  | bind (name : Nat) (iface : String) (version : Nat) (newId : Nat)
  | createSurface (compositor : Nat) (newId : Nat)
  | getXdgSurface (wmBase : Nat) (surface : Nat) (newId : Nat)
  | getToplevel (xdgSurface : Nat) (newId : Nat)
  | setTitle (toplevel : Nat) (title : String)
  | setAppId (toplevel : Nat) (appId : String)
  | commit (surface : Nat)
  | writeShm (bytes : List Nat)
  | createPool (shm : Nat) (size : Nat) (newId : Nat)
  | createBuffer (pool : Nat) (offset width height stride : Nat) (format : String) (newId : Nat)
  | attach (surface : Nat) (buffer : Option Nat) (x y : Nat)
  | ackConfigure (xdgSurface : Nat) (serial : Nat)
  | pong (serial : Nat)
  | getKeyboard (newId : Nat)
  | logKey (serial time key : Nat)
  deriving Repr, DecidableEq

/-- The protocol events the program handles, one constructor per
`Dispatch` arm that does something, plus no-op constructors for the event
shapes the `if let` patterns ignore. -/
inductive Ev where
  | global (name : Nat) (iface : String) (version : Nat)
  | globalRemove
  | ping (serial : Nat)
  | configure (obj : Nat) (serial : Nat)
  | toplevelClose
  | toplevelOther
  | seatCapabilities (caps : Nat)
  | seatCapsUnknown
  | key (serial time key : Nat)
  | keyboardOther
  deriving Repr, DecidableEq

/-- The `draw` function of `src/main.rs`, as the pure byte stream it
writes: one 4-byte group `[b, g, r, a]` per pixel, x innermost.  The Rust
arithmetic is on `u32` with a final `as u8` cast, modelled by `% 256` on
each written byte (the `u32` intermediate values cannot overflow for the
sizes involved since each factor is at most `w * 255`). -/
def pixelBytes (w h x y : Nat) : List Nat :=
  let a := 0xFF
  let r := min ((w - x) * 0xFF / w) ((h - y) * 0xFF / h)
  let g := min (x * 0xFF / w) ((h - y) * 0xFF / h)
  let b := min ((w - x) * 0xFF / w) (y * 0xFF / h)
  [b % 256, g % 256, r % 256, a % 256]

/-- The nested `for y in 0..buf_y { for x in 0..buf_x { ... } }` loops of
`draw`, flattened into the byte list written to the backing file. -/
def draw (w h : Nat) : List Nat :=
  ((List.range h).map fun y =>
    ((List.range w).map fun x => pixelBytes w h x y).flatten).flatten

/-- `AppState::init_xdg_surface`: unwraps `wm_base` and `base_surface`,
creates the xdg surface and toplevel, sets title and app id, commits the
base surface, and stores the pair.  `none` models the panic when an
`unwrap` fails. -/
def init_xdg_surface (s : AppState) (n : Nat) : Option (AppState × Nat × List Req) :=
  match s.wm_base, s.base_surface with
  | some wm, some base =>
    let xdg := n
    let top := n + 1
    some ({ s with xdg_surface := some (xdg, top) }, n + 2,
      [Req.getXdgSurface wm base xdg, Req.getToplevel xdg top,
       Req.setTitle top "receba", Req.setAppId top "EstamosAquiDaSilva.org",
       Req.commit base])
  | _, _ => none

/-- The `Dispatch<wl_registry::WlRegistry>` handler's `Global` arm: the
match on the interface string with its four bound interfaces and the
catch-all `_ => {}`. -/
def registry_global (s : AppState) (n : Nat) (name : Nat) (iface : String)
    (version : Nat) : Option (AppState × Nat × List Req) :=
  if iface = "wl_compositor" then
    let compositor := n
    let surface := n + 1
    let s1 := { s with base_surface := some surface }
    let reqs := [Req.bind name "wl_compositor" version compositor,
                 Req.createSurface compositor surface]
    if s1.wm_base.isSome && s1.xdg_surface.isNone then
      match init_xdg_surface s1 (n + 2) with
      | none => none
      | some (s2, n2, reqs2) => some (s2, n2, reqs ++ reqs2)
    else some (s1, n + 2, reqs)
  else if iface = "wl_shm" then
    let shm := n
    let pool := n + 1
    let buffer := n + 2
    let reqs := [Req.bind name "wl_shm" version shm,
                 Req.writeShm (draw 320 240),
                 Req.createPool shm (320 * 240 * 4) pool,
                 Req.createBuffer pool 0 320 240 (320 * 4) "Argb8888" buffer]
    let s1 := { s with buffer := some buffer }
    if s.configured then
      match s.base_surface with
      | none => none
      | some base =>
        some (s1, n + 3, reqs ++ [Req.attach base (some buffer) 0 0, Req.commit base])
    else some (s1, n + 3, reqs)
  else if iface = "wl_seat" then
    some (s, n + 1, [Req.bind name "wl_seat" version n])
  else if iface = "xdg_wm_base" then
    let wm := n
    let s1 := { s with wm_base := some wm }
    let reqs := [Req.bind name "xdg_wm_base" version wm]
    if s1.base_surface.isSome && s1.xdg_surface.isNone then
      match init_xdg_surface s1 (n + 1) with
      | none => none
      | some (s2, n2, reqs2) => some (s2, n2, reqs ++ reqs2)
    else some (s1, n + 1, reqs)
  else some (s, n, [])

/-- The `Dispatch<xdg_surface::XdgSurface>` handler's `Configure` arm:
acknowledge the serial, set `configured`, unwrap `base_surface`, and if a
buffer exists attach it at the origin and commit. -/
def xdg_surface_configure (s : AppState) (n : Nat) (obj serial : Nat) :
    Option (AppState × Nat × List Req) :=
  match s.base_surface with
  | none => none
  | some base =>
    let s1 := { s with configured := true }
    match s.buffer with
    | some buf =>
      some (s1, n, [Req.ackConfigure obj serial, Req.attach base (some buf) 0 0,
                    Req.commit base])
    | none => some (s1, n, [Req.ackConfigure obj serial])

/-- One dispatched event: the union of all `Dispatch` impls of
`src/main.rs`.  Keyboard capability bit: `wl_seat::Capability::Keyboard`
is the bit value 2. -/
def step (s : AppState) (n : Nat) : Ev → Option (AppState × Nat × List Req)
  | Ev.global name iface version => registry_global s n name iface version
  | Ev.globalRemove => some (s, n, [])
  | Ev.ping serial => some (s, n, [Req.pong serial])
  | Ev.configure obj serial => xdg_surface_configure s n obj serial
  | Ev.toplevelClose => some ({ s with running := false }, n, [])
  | Ev.toplevelOther => some (s, n, [])
  | Ev.seatCapabilities caps =>
    if caps &&& 2 ≠ 0 then some (s, n + 1, [Req.getKeyboard n])
    else some (s, n, [])
  | Ev.seatCapsUnknown => some (s, n, [])
  | Ev.key serial time key =>
    some ((if key = 1 then { s with running := false } else s), n,
          [Req.logKey serial time key])
  | Ev.keyboardOther => some (s, n, [])

/-- Dispatch a list of events in order, accumulating the requests; a
panicking handler aborts the run. -/
def steps : AppState → Nat → List Ev → Option (AppState × Nat × List Req)
  | s, n, [] => some (s, n, [])
  | s, n, e :: rest =>
    match step s n e with
    | none => none
    | some (s', n', tr) =>
      match steps s' n' rest with
      | none => none
      | some (s'', n'', tr') => some (s'', n'', tr ++ tr')

/-- The `while app_state.running { event_queue.blocking_dispatch(..) }`
loop of `main`, at the granularity of one delivered event per dispatch:
the flag is checked before each event is processed. -/
def runLoop : AppState → Nat → List Ev → Option (AppState × Nat × List Req)
  | s, n, [] => some (s, n, [])
  | s, n, e :: rest =>
    if s.running then
      match step s n e with
      | none => none
      | some (s', n', tr) =>
        match runLoop s' n' rest with
        | none => none
        | some (s'', n'', tr') => some (s'', n'', tr ++ tr')
    else some (s, n, [])

/-- The `AppState` literal built in `main`. -/
def initState : AppState :=
  { running := true, base_surface := none, buffer := none, wm_base := none,
    xdg_surface := none, configured := false }

/-- Count `attach` requests in a trace. -/
def countAttach : List Req → Nat
  | [] => 0
  | Req.attach _ _ _ _ :: rest => countAttach rest + 1
  | _ :: rest => countAttach rest

/-- Count adjacent attach-then-commit request pairs in a trace. -/
def countAttachCommit : List Req → Nat
  | Req.attach _ _ _ _ :: Req.commit c :: rest =>
    countAttachCommit (Req.commit c :: rest) + 1
  | _ :: rest => countAttachCommit rest
  | [] => 0

/-- Count `getXdgSurface` (window-role creation) requests in a trace. -/
def countGetXdgSurface : List Req → Nat
  | [] => 0
  | Req.getXdgSurface _ _ _ :: rest => countGetXdgSurface rest + 1
  | _ :: rest => countGetXdgSurface rest

/-- Protocol precondition on event delivery: a configure event is only
delivered for an xdg surface object that was previously created. -/
def admissible (s : AppState) : Ev → Prop
  | Ev.configure _ _ => s.xdg_surface.isSome
  | _ => True

/-- States reachable from `main`'s initial state by dispatching
admissible events. -/
inductive Reachable : AppState → Nat → Prop
  | init : Reachable initState 0
  | step {s n e s' n' tr} : Reachable s n → admissible s e →
      step s n e = some (s', n', tr) → Reachable s' n'

/-- Recognizer for `ackConfigure` requests. -/
def isAckConfigure : Req → Bool
  | Req.ackConfigure _ _ => true
  | _ => false

/-- The handshake invariant maintained by every handler: once the surface
is configured, and once the window role exists, the base surface exists. -/
def Inv (s : AppState) : Prop :=
  (s.configured = true → s.base_surface.isSome) ∧
  (s.xdg_surface.isSome → s.base_surface.isSome)

/-- A handler whose state has `running = false` is never reached by the
main loop: the loop exits before dispatching anything further. -/
theorem runLoop_stopped (s : AppState) (n : Nat) (l : List Ev)
    (h : s.running = false) : runLoop s n l = some (s, n, []) := by
  cases l with
  | nil => rfl
  | cons e rest => simp [runLoop, h]

/-- C4: the configure handler acknowledges exactly the serial it
received: the trace of the handler contains exactly one `ack_configure`
request, it is the first request issued, and its serial is the configure
event's serial. -/
theorem configure_ack_same_serial (s : AppState) (n obj serial base : Nat)
    (hbase : s.base_surface = some base) :
    ∃ s' tr, step s n (Ev.configure obj serial) = some (s', n, tr) ∧
      tr.head? = some (Req.ackConfigure obj serial) ∧
      tr.filter isAckConfigure = [Req.ackConfigure obj serial] ∧
      s'.configured = true := by
  cases hbuf : s.buffer with
  | none =>
    exact ⟨{ s with configured := true }, [Req.ackConfigure obj serial],
      by simp [step, xdg_surface_configure, hbase, hbuf], rfl, rfl, rfl⟩
  | some buf =>
    exact ⟨{ s with configured := true },
      [Req.ackConfigure obj serial, Req.attach base (some buf) 0 0, Req.commit base],
      by simp [step, xdg_surface_configure, hbase, hbuf], rfl, rfl, rfl⟩

/-- Witness for C4 at a concrete state and serial. -/
theorem configure_ack_same_serial_witness :
    ∃ s' tr,
      step { initState with base_surface := some 7 } 0 (Ev.configure 99 42) =
        some (s', 0, tr) ∧
      tr.head? = some (Req.ackConfigure 99 42) ∧
      tr.filter isAckConfigure = [Req.ackConfigure 99 42] ∧
      s'.configured = true :=
  configure_ack_same_serial { initState with base_surface := some 7 } 0 99 42 7 rfl

/-- C5: a ping with serial `s` produces exactly one pong with the same
serial and nothing else: the state (and the id counter) are unchanged and
the handler's whole trace is that single pong, which is therefore issued
before any subsequent event is dispatched. -/
theorem ping_pong_same_serial (s : AppState) (n serial : Nat) :
    step s n (Ev.ping serial) = some (s, n, [Req.pong serial]) := rfl

/-- C6: a toplevel close event sets `running` to `false`, the handler
itself issues no requests, and the main loop exits at its next check of
the flag: whatever events might still arrive afterwards, the loop
dispatches none of them, so no further requests are issued. -/
theorem close_exits_loop (s : AppState) (n : Nat) (rest : List Ev)
    (h : s.running = true) :
    runLoop s n (Ev.toplevelClose :: rest) =
      some ({ s with running := false }, n, []) := by
  have hstop := runLoop_stopped { s with running := false } n rest rfl
  simp [runLoop, h, step, hstop]

/-- Witness for C6: closing from the initial state, with further events
still pending, emits no request at all. -/
theorem close_exits_loop_witness :
    runLoop initState 0 [Ev.toplevelClose, Ev.ping 1, Ev.key 2 3 4] =
      some ({ initState with running := false }, 0, []) :=
  close_exits_loop initState 0 [Ev.ping 1, Ev.key 2 3 4] rfl

/-- C7: a keyboard key event always emits exactly the log line; the quit
code 1 additionally clears `running`, while every other code leaves the
whole state (every `AppState` field and the id counter) unchanged. -/
theorem key_quit_or_log (s : AppState) (n serial time key : Nat) :
    (key = 1 →
      step s n (Ev.key serial time key) =
        some ({ s with running := false }, n, [Req.logKey serial time key])) ∧
    (key ≠ 1 →
      step s n (Ev.key serial time key) =
        some (s, n, [Req.logKey serial time key])) := by
  refine ⟨fun h => ?_, fun h => ?_⟩ <;> simp [step, h]

/-- Witness for C7 at the quit code and at an ordinary code. -/
theorem key_quit_or_log_witness :
    step initState 0 (Ev.key 5 6 1) =
      some ({ initState with running := false }, 0, [Req.logKey 5 6 1]) ∧
    step initState 0 (Ev.key 5 6 30) =
      some (initState, 0, [Req.logKey 5 6 30]) :=
  ⟨(key_quit_or_log initState 0 5 6 1).1 rfl,
   (key_quit_or_log initState 0 5 6 30).2 (by decide)⟩

/-! ### Per-branch characterizations of `step`, shared by the theorems below -/

theorem compositor_step_wm_none (s : AppState) (n name version : Nat)
    (hw : s.wm_base = none) :
    step s n (Ev.global name "wl_compositor" version) =
      some ({ s with base_surface := some (n + 1) }, n + 2,
        [Req.bind name "wl_compositor" version n, Req.createSurface n (n + 1)]) := by
  simp [step, registry_global, hw]

theorem compositor_step_role_exists (s : AppState) (n name version : Nat)
    (p : Nat × Nat) (hx : s.xdg_surface = some p) :
    step s n (Ev.global name "wl_compositor" version) =
      some ({ s with base_surface := some (n + 1) }, n + 2,
        [Req.bind name "wl_compositor" version n, Req.createSurface n (n + 1)]) := by
  simp [step, registry_global, hx]

theorem compositor_step_makes_role (s : AppState) (n name version wm : Nat)
    (hw : s.wm_base = some wm) (hx : s.xdg_surface = none) :
    step s n (Ev.global name "wl_compositor" version) =
      some ({ s with base_surface := some (n + 1), xdg_surface := some (n + 2, n + 3) },
        n + 4,
        [Req.bind name "wl_compositor" version n, Req.createSurface n (n + 1),
         Req.getXdgSurface wm (n + 1) (n + 2), Req.getToplevel (n + 2) (n + 3),
         Req.setTitle (n + 3) "receba", Req.setAppId (n + 3) "EstamosAquiDaSilva.org",
         Req.commit (n + 1)]) := by
  simp [step, registry_global, init_xdg_surface, hw, hx]

theorem wm_base_step_base_none (s : AppState) (n name version : Nat)
    (hb : s.base_surface = none) :
    step s n (Ev.global name "xdg_wm_base" version) =
      some ({ s with wm_base := some n }, n + 1,
        [Req.bind name "xdg_wm_base" version n]) := by
  simp [step, registry_global, hb]

theorem wm_base_step_role_exists (s : AppState) (n name version : Nat)
    (p : Nat × Nat) (hx : s.xdg_surface = some p) :
    step s n (Ev.global name "xdg_wm_base" version) =
      some ({ s with wm_base := some n }, n + 1,
        [Req.bind name "xdg_wm_base" version n]) := by
  simp [step, registry_global, hx]

theorem wm_base_step_makes_role (s : AppState) (n name version base : Nat)
    (hb : s.base_surface = some base) (hx : s.xdg_surface = none) :
    step s n (Ev.global name "xdg_wm_base" version) =
      some ({ s with wm_base := some n, xdg_surface := some (n + 1, n + 2) }, n + 3,
        [Req.bind name "xdg_wm_base" version n,
         Req.getXdgSurface n base (n + 1), Req.getToplevel (n + 1) (n + 2),
         Req.setTitle (n + 2) "receba", Req.setAppId (n + 2) "EstamosAquiDaSilva.org",
         Req.commit base]) := by
  simp [step, registry_global, init_xdg_surface, hb, hx]

theorem shm_step_not_configured (s : AppState) (n name version : Nat)
    (hc : s.configured = false) :
    step s n (Ev.global name "wl_shm" version) =
      some ({ s with buffer := some (n + 2) }, n + 3,
        [Req.bind name "wl_shm" version n, Req.writeShm (draw 320 240),
         Req.createPool n (320 * 240 * 4) (n + 1),
         Req.createBuffer (n + 1) 0 320 240 (320 * 4) "Argb8888" (n + 2)]) := by
  simp [step, registry_global, hc]

theorem shm_step_configured (s : AppState) (n name version base : Nat)
    (hc : s.configured = true) (hb : s.base_surface = some base) :
    step s n (Ev.global name "wl_shm" version) =
      some ({ s with buffer := some (n + 2) }, n + 3,
        [Req.bind name "wl_shm" version n, Req.writeShm (draw 320 240),
         Req.createPool n (320 * 240 * 4) (n + 1),
         Req.createBuffer (n + 1) 0 320 240 (320 * 4) "Argb8888" (n + 2),
         Req.attach base (some (n + 2)) 0 0, Req.commit base]) := by
  simp [step, registry_global, hc, hb]

theorem seat_step (s : AppState) (n name version : Nat) :
    step s n (Ev.global name "wl_seat" version) =
      some (s, n + 1, [Req.bind name "wl_seat" version n]) := by
  simp [step, registry_global]

theorem other_global_step (s : AppState) (n name version : Nat) (iface : String)
    (h1 : iface ≠ "wl_compositor") (h2 : iface ≠ "wl_shm")
    (h3 : iface ≠ "wl_seat") (h4 : iface ≠ "xdg_wm_base") :
    step s n (Ev.global name iface version) = some (s, n, []) := by
  simp [step, registry_global, h1, h2, h3, h4]

theorem configure_step_no_buffer (s : AppState) (n obj serial base : Nat)
    (hb : s.base_surface = some base) (hbuf : s.buffer = none) :
    step s n (Ev.configure obj serial) =
      some ({ s with configured := true }, n, [Req.ackConfigure obj serial]) := by
  simp [step, xdg_surface_configure, hb, hbuf]

theorem configure_step_buffer (s : AppState) (n obj serial base buf : Nat)
    (hb : s.base_surface = some base) (hbuf : s.buffer = some buf) :
    step s n (Ev.configure obj serial) =
      some ({ s with configured := true }, n,
        [Req.ackConfigure obj serial, Req.attach base (some buf) 0 0,
         Req.commit base]) := by
  simp [step, xdg_surface_configure, hb, hbuf]

/-! ### Facts about `draw` -/

theorem pixelBytes_length (w h x y : Nat) : (pixelBytes w h x y).length = 4 := rfl

theorem sum_map_const_nat {α : Type} (l : List α) (k : Nat) :
    (l.map fun _ => k).sum = k * l.length := by
  induction l with
  | nil => simp
  | cons a t ih => simp [ih]; ring

theorem flatten_drop_const {α : Type} (k : Nat) :
    ∀ (L : List (List α)) (i : Nat), (∀ l ∈ L, l.length = k) → ∀ hi : i < L.length,
      L.flatten.drop (k * i) = L[i] ++ (L.drop (i + 1)).flatten := by
  intro L
  induction L with
  | nil => intro i hk hi; simp at hi
  | cons l t ih =>
    intro i hk hi
    cases i with
    | zero => simp
    | succ j =>
      have hl : l.length = k := hk l (by simp)
      have hj : j < t.length := by simpa using hi
      have h1 : (l ++ t.flatten).drop (k * (j + 1)) = t.flatten.drop (k * j) := by
        rw [show k * (j + 1) = l.length + k * j by rw [hl]; ring]
        rw [← List.drop_drop, List.drop_left]
      have h2 := ih j (fun x hx => hk x (by simp [hx])) hj
      simp only [List.flatten_cons, h1, h2, List.getElem_cons_succ, List.drop_succ_cons]

theorem row_length (w h y : Nat) :
    (((List.range w).map fun x => pixelBytes w h x y).flatten).length = 4 * w := by
  rw [List.length_flatten, List.map_map]
  have : ((List.range w).map (List.length ∘ fun x => pixelBytes w h x y)) =
      (List.range w).map fun _ => 4 := by
    apply List.map_congr_left; intro x _; simp [pixelBytes_length]
  rw [this, sum_map_const_nat, List.length_range]

theorem draw_length (w h : Nat) : (draw w h).length = 4 * (w * h) := by
  unfold draw
  rw [List.length_flatten, List.map_map]
  have hrow : ((List.range h).map
      (List.length ∘ fun y => ((List.range w).map fun x => pixelBytes w h x y).flatten)) =
      (List.range h).map fun _ => 4 * w := by
    apply List.map_congr_left
    intro y _
    simp only [Function.comp_apply]
    exact row_length w h y
  rw [hrow, sum_map_const_nat, List.length_range]
  ring

theorem draw_pixel (w h x y : Nat) (hx : x < w) (hy : y < h) :
    ((draw w h).drop (4 * (y * w + x))).take 4 = pixelBytes w h x y := by
  have hrowlen : ∀ l ∈ (List.range h).map
      (fun y => ((List.range w).map fun x => pixelBytes w h x y).flatten),
      l.length = 4 * w := by
    intro l hl
    obtain ⟨y', _, rfl⟩ := List.mem_map.mp hl
    exact row_length w h y'
  have hy' : y < ((List.range h).map
      (fun y => ((List.range w).map fun x => pixelBytes w h x y).flatten)).length := by
    simpa using hy
  have hle : 4 * x ≤ (((List.range w).map fun x => pixelBytes w h x y).flatten).length := by
    rw [row_length]; omega
  have hsplit : (draw w h).drop (4 * (y * w + x)) =
      ((((List.range w).map fun x => pixelBytes w h x y).flatten).drop (4 * x)) ++
      ((((List.range h).map
        (fun y => ((List.range w).map fun x => pixelBytes w h x y).flatten)).drop (y + 1)).flatten) := by
    have harith : 4 * (y * w + x) = (4 * w) * y + 4 * x := by ring
    rw [show draw w h = ((List.range h).map
      (fun y => ((List.range w).map fun x => pixelBytes w h x y).flatten)).flatten from rfl]
    rw [harith, ← List.drop_drop]
    rw [flatten_drop_const (4 * w) _ y hrowlen hy']
    rw [List.getElem_map, List.getElem_range]
    rw [List.drop_append_of_le_length hle]
  have hx' : x < ((List.range w).map fun x => pixelBytes w h x y).length := by simpa using hx
  have hpix : (((List.range w).map fun x => pixelBytes w h x y).flatten).drop (4 * x) =
      pixelBytes w h x y ++
        ((((List.range w).map fun x => pixelBytes w h x y).drop (x + 1)).flatten) := by
    have := flatten_drop_const 4 ((List.range w).map fun x => pixelBytes w h x y) x
      (by intro l hl; obtain ⟨x', _, rfl⟩ := List.mem_map.mp hl; exact pixelBytes_length w h x' y) hx'
    rw [this, List.getElem_map, List.getElem_range]
  rw [hsplit, hpix, List.append_assoc]
  exact List.take_left' (pixelBytes_length w h x y)

/-- C8: the pixel generator is a pure function of width and height (in
this embedding it is literally a function, so two calls with equal
arguments are definitionally equal), its output length is exactly
`4 * width * height` bytes for every width and height, and the 4 bytes of
pixel `(x, y)` sit at offset `4 * (y * w + x)` in the order B, G, R, A
with the colour ramps computed by the source. -/
theorem draw_pure_length_layout (w h : Nat) :
    draw w h = draw w h ∧
    (draw w h).length = 4 * (w * h) ∧
    ∀ x y, x < w → y < h →
      ((draw w h).drop (4 * (y * w + x))).take 4 =
        [min ((w - x) * 255 / w) (y * 255 / h) % 256,
         min (x * 255 / w) ((h - y) * 255 / h) % 256,
         min ((w - x) * 255 / w) ((h - y) * 255 / h) % 256,
         255] := by
  refine ⟨rfl, draw_length w h, fun x y hx hy => ?_⟩
  rw [draw_pixel w h x y hx hy]
  rfl

/-- Witness for C8 at width 2, height 3, pixel (1, 2). -/
theorem draw_pure_length_layout_witness :
    (draw 2 3).length = 4 * (2 * 3) ∧
    ((draw 2 3).drop (4 * (2 * 2 + 1))).take 4 =
      [min ((2 - 1) * 255 / 2) (2 * 255 / 3) % 256,
       min (1 * 255 / 2) ((3 - 2) * 255 / 3) % 256,
       min ((2 - 1) * 255 / 2) ((3 - 2) * 255 / 3) % 256,
       255] :=
  ⟨(draw_pure_length_layout 2 3).2.1,
   (draw_pure_length_layout 2 3).2.2 1 2 (by decide) (by decide)⟩

/-- C9: in the `wl_shm` branch the pixel generator's output is written to
the backing file before the pool is created (the `writeShm` effect
precedes `createPool` in the trace), the pool size is exactly
`320 * 240 * 4` bytes, which equals `stride * height` for
`stride = 320 * 4` and equals the generated backing store's length, and
the single buffer is created at offset 0 with that stride and the
`Argb8888` format at the fixed initial size 320 × 240; the buffer handle
is stored in the session. -/
theorem shm_branch_sizes (s : AppState) (n name version : Nat)
    (h : s.configured = true → s.base_surface.isSome) :
    ∃ s' n' tr,
      step s n (Ev.global name "wl_shm" version) = some (s', n', tr) ∧
      tr.take 4 = [Req.bind name "wl_shm" version n,
                   Req.writeShm (draw 320 240),
                   Req.createPool n (320 * 240 * 4) (n + 1),
                   Req.createBuffer (n + 1) 0 320 240 (320 * 4) "Argb8888" (n + 2)] ∧
      s'.buffer = some (n + 2) ∧
      (draw 320 240).length = 320 * 240 * 4 ∧
      320 * 240 * 4 = (320 * 4) * 240 := by
  have hlen : (draw 320 240).length = 320 * 240 * 4 := by
    rw [draw_length]
  cases hconf : s.configured with
  | false =>
    exact ⟨_, _, _, shm_step_not_configured s n name version hconf, rfl, rfl,
      hlen, by norm_num⟩
  | true =>
    obtain ⟨base, hbase⟩ := Option.isSome_iff_exists.mp (h hconf)
    exact ⟨_, _, _, shm_step_configured s n name version base hconf hbase, rfl, rfl,
      hlen, by norm_num⟩

/-- Witness for C9 at the initial state. -/
theorem shm_branch_sizes_witness :
    ∃ s' n' tr,
      step initState 0 (Ev.global 1 "wl_shm" 2) = some (s', n', tr) ∧
      tr.take 4 = [Req.bind 1 "wl_shm" 2 0,
                   Req.writeShm (draw 320 240),
                   Req.createPool 0 (320 * 240 * 4) 1,
                   Req.createBuffer 1 0 320 240 (320 * 4) "Argb8888" 2] ∧
      s'.buffer = some 2 ∧
      (draw 320 240).length = 320 * 240 * 4 ∧
      320 * 240 * 4 = (320 * 4) * 240 :=
  shm_branch_sizes initState 0 1 2 (by decide)

/-- C1: from a state where the base surface exists but no buffer has been
created and no configure has been received, for both arrival orderings of
the shared-memory advertisement and the first configure event, the
dispatched traces are exactly as listed: the handler that runs first
issues no attach, the handler that completes the pair issues the single
attach-then-commit on the base surface, and the combined trace contains
exactly one attach and one attach-then-commit pair. -/
theorem buffer_configure_race (s : AppState) (n name version obj serial base : Nat)
    (hbase : s.base_surface = some base) (hbuf : s.buffer = none)
    (hconf : s.configured = false) :
    (step s n (Ev.global name "wl_shm" version) =
        some ({ s with buffer := some (n + 2) }, n + 3,
          [Req.bind name "wl_shm" version n, Req.writeShm (draw 320 240),
           Req.createPool n (320 * 240 * 4) (n + 1),
           Req.createBuffer (n + 1) 0 320 240 (320 * 4) "Argb8888" (n + 2)]) ∧
      step { s with buffer := some (n + 2) } (n + 3) (Ev.configure obj serial) =
        some ({ s with buffer := some (n + 2), configured := true }, n + 3,
          [Req.ackConfigure obj serial, Req.attach base (some (n + 2)) 0 0,
           Req.commit base]) ∧
      countAttach [Req.bind name "wl_shm" version n, Req.writeShm (draw 320 240),
           Req.createPool n (320 * 240 * 4) (n + 1),
           Req.createBuffer (n + 1) 0 320 240 (320 * 4) "Argb8888" (n + 2)] = 0 ∧
      countAttach ([Req.bind name "wl_shm" version n, Req.writeShm (draw 320 240),
           Req.createPool n (320 * 240 * 4) (n + 1),
           Req.createBuffer (n + 1) 0 320 240 (320 * 4) "Argb8888" (n + 2)] ++
          [Req.ackConfigure obj serial, Req.attach base (some (n + 2)) 0 0,
           Req.commit base]) = 1 ∧
      countAttachCommit ([Req.bind name "wl_shm" version n, Req.writeShm (draw 320 240),
           Req.createPool n (320 * 240 * 4) (n + 1),
           Req.createBuffer (n + 1) 0 320 240 (320 * 4) "Argb8888" (n + 2)] ++
          [Req.ackConfigure obj serial, Req.attach base (some (n + 2)) 0 0,
           Req.commit base]) = 1) ∧
    (step s n (Ev.configure obj serial) =
        some ({ s with configured := true }, n, [Req.ackConfigure obj serial]) ∧
      step { s with configured := true } n (Ev.global name "wl_shm" version) =
        some ({ s with configured := true, buffer := some (n + 2) }, n + 3,
          [Req.bind name "wl_shm" version n, Req.writeShm (draw 320 240),
           Req.createPool n (320 * 240 * 4) (n + 1),
           Req.createBuffer (n + 1) 0 320 240 (320 * 4) "Argb8888" (n + 2),
           Req.attach base (some (n + 2)) 0 0, Req.commit base]) ∧
      countAttach [Req.ackConfigure obj serial] = 0 ∧
      countAttach ([Req.ackConfigure obj serial] ++
          [Req.bind name "wl_shm" version n, Req.writeShm (draw 320 240),
           Req.createPool n (320 * 240 * 4) (n + 1),
           Req.createBuffer (n + 1) 0 320 240 (320 * 4) "Argb8888" (n + 2),
           Req.attach base (some (n + 2)) 0 0, Req.commit base]) = 1 ∧
      countAttachCommit ([Req.ackConfigure obj serial] ++
          [Req.bind name "wl_shm" version n, Req.writeShm (draw 320 240),
           Req.createPool n (320 * 240 * 4) (n + 1),
           Req.createBuffer (n + 1) 0 320 240 (320 * 4) "Argb8888" (n + 2),
           Req.attach base (some (n + 2)) 0 0, Req.commit base]) = 1) := by
  refine ⟨⟨shm_step_not_configured s n name version hconf, ?_, rfl, rfl, rfl⟩,
          ⟨configure_step_no_buffer s n obj serial base hbase hbuf, ?_, rfl, rfl, rfl⟩⟩
  · exact configure_step_buffer { s with buffer := some (n + 2) } (n + 3) obj serial
      base (n + 2) (by simpa using hbase) rfl
  · exact shm_step_configured { s with configured := true } n name version base rfl
      (by simpa using hbase)

/-- Witness for C1 at a concrete state with base surface handle 7. -/
theorem buffer_configure_race_witness :
    step { initState with base_surface := some 7 } 10 (Ev.global 1 "wl_shm" 2) =
      some ({ initState with base_surface := some 7, buffer := some 12 }, 13,
        [Req.bind 1 "wl_shm" 2 10, Req.writeShm (draw 320 240),
         Req.createPool 10 (320 * 240 * 4) 11,
         Req.createBuffer 11 0 320 240 (320 * 4) "Argb8888" 12]) ∧
    step { initState with base_surface := some 7, buffer := some 12 } 13
        (Ev.configure 99 42) =
      some ({ initState with base_surface := some 7, buffer := some 12, configured := true }, 13,
        [Req.ackConfigure 99 42, Req.attach 7 (some 12) 0 0, Req.commit 7]) :=
  ⟨((buffer_configure_race { initState with base_surface := some 7 }
      10 1 2 99 42 7 rfl rfl rfl).1).1,
   ((buffer_configure_race { initState with base_surface := some 7 }
      10 1 2 99 42 7 rfl rfl rfl).1).2.1⟩

/-- C3 counterexample: on a `wl_seat` advertisement the handler issues
the bind request but stores nothing: the session state after the event is
exactly the initial state again (the bound seat handle is dropped), so
the claim that each of the four recognized interfaces has its resulting
handle stored in the session fails for `wl_seat`. -/
theorem seat_handle_not_stored :
    step initState 0 (Ev.global 3 "wl_seat" 8) =
      some (initState, 1, [Req.bind 3 "wl_seat" 8 0]) := by
  simp [step, registry_global]

/-- C3 (amended): on a global advertisement the handler binds each of the
four recognized interfaces, and for `wl_compositor`, `wl_shm` and
`xdg_wm_base` stores a resulting handle in the session (the created
surface, the created buffer, and the bound window base respectively);
for `wl_seat` it binds but stores nothing, leaving the session unchanged;
for every other interface name it issues no requests and leaves the
session unchanged. -/
theorem registry_global_cases (s : AppState) (n name version : Nat) (iface : String) :
    (iface = "wl_compositor" →
      ∃ s' n' tr, step s n (Ev.global name iface version) = some (s', n', tr) ∧
        s'.base_surface = some (n + 1) ∧
        tr.head? = some (Req.bind name "wl_compositor" version n)) ∧
    (iface = "wl_shm" → (s.configured = true → s.base_surface.isSome) →
      ∃ s' n' tr, step s n (Ev.global name iface version) = some (s', n', tr) ∧
        s'.buffer = some (n + 2) ∧
        tr.head? = some (Req.bind name "wl_shm" version n)) ∧
    (iface = "wl_seat" →
      step s n (Ev.global name iface version) =
        some (s, n + 1, [Req.bind name "wl_seat" version n])) ∧
    (iface = "xdg_wm_base" →
      ∃ s' n' tr, step s n (Ev.global name iface version) = some (s', n', tr) ∧
        s'.wm_base = some n ∧
        tr.head? = some (Req.bind name "xdg_wm_base" version n)) ∧
    (iface ≠ "wl_compositor" → iface ≠ "wl_shm" → iface ≠ "wl_seat" →
      iface ≠ "xdg_wm_base" →
      step s n (Ev.global name iface version) = some (s, n, [])) := by
  refine ⟨?_, ?_, ?_, ?_, ?_⟩
  · rintro rfl
    cases hw : s.wm_base with
    | none => exact ⟨_, _, _, compositor_step_wm_none s n name version hw, rfl, rfl⟩
    | some wm =>
      cases hx : s.xdg_surface with
      | some p => exact ⟨_, _, _, compositor_step_role_exists s n name version p hx, rfl, rfl⟩
      | none => exact ⟨_, _, _, compositor_step_makes_role s n name version wm hw hx, rfl, rfl⟩
  · rintro rfl hc
    cases hconf : s.configured with
    | false => exact ⟨_, _, _, shm_step_not_configured s n name version hconf, rfl, rfl⟩
    | true =>
      obtain ⟨base, hbase⟩ := Option.isSome_iff_exists.mp (hc hconf)
      exact ⟨_, _, _, shm_step_configured s n name version base hconf hbase, rfl, rfl⟩
  · rintro rfl
    exact seat_step s n name version
  · rintro rfl
    cases hb : s.base_surface with
    | none => exact ⟨_, _, _, wm_base_step_base_none s n name version hb, rfl, rfl⟩
    | some base =>
      cases hx : s.xdg_surface with
      | some p => exact ⟨_, _, _, wm_base_step_role_exists s n name version p hx, rfl, rfl⟩
      | none => exact ⟨_, _, _, wm_base_step_makes_role s n name version base hb hx, rfl, rfl⟩
  · intro h1 h2 h3 h4
    exact other_global_step s n name version iface h1 h2 h3 h4

/-- Witness for the amended C3 at an unrecognized interface. -/
theorem registry_global_cases_witness :
    step initState 0 (Ev.global 3 "wl_output" 8) = some (initState, 0, []) :=
  (registry_global_cases initState 0 3 8 "wl_output").2.2.2.2
    (by decide) (by decide) (by decide) (by decide)

/-! ### Panic cases of `step`, and the handshake invariant proofs -/

theorem shm_step_stuck (s : AppState) (n name version : Nat)
    (hc : s.configured = true) (hb : s.base_surface = none) :
    step s n (Ev.global name "wl_shm" version) = none := by
  simp [step, registry_global, hc, hb]

theorem configure_step_stuck (s : AppState) (n obj serial : Nat)
    (hb : s.base_surface = none) :
    step s n (Ev.configure obj serial) = none := by
  simp [step, xdg_surface_configure, hb]

/-- Every handler preserves the handshake invariant and, on an admissible
event, succeeds (does not hit a failing `unwrap`). -/
theorem inv_step_total (s : AppState) (n : Nat) (e : Ev) (hinv : Inv s)
    (hadm : admissible s e) :
    ∃ s' n' tr, step s n e = some (s', n', tr) ∧ Inv s' := by
  cases e with
  | global name iface version =>
    by_cases h1 : iface = "wl_compositor"
    · subst h1
      cases hw : s.wm_base with
      | none =>
        exact ⟨_, _, _, compositor_step_wm_none s n name version hw,
          fun _ => rfl, fun _ => rfl⟩
      | some wm =>
        cases hx : s.xdg_surface with
        | none =>
          exact ⟨_, _, _, compositor_step_makes_role s n name version wm hw hx,
            fun _ => rfl, fun _ => rfl⟩
        | some p =>
          exact ⟨_, _, _, compositor_step_role_exists s n name version p hx,
            fun _ => rfl, fun _ => rfl⟩
    · by_cases h2 : iface = "wl_shm"
      · subst h2
        cases hc : s.configured with
        | false =>
          refine ⟨_, _, _, shm_step_not_configured s n name version hc,
            fun hcc => ?_, fun hxx => hinv.2 hxx⟩
          exact absurd hcc (by simp [hc])
        | true =>
          obtain ⟨base, hbase⟩ := Option.isSome_iff_exists.mp (hinv.1 hc)
          exact ⟨_, _, _, shm_step_configured s n name version base hc hbase,
            fun _ => by simp [hbase], fun _ => by simp [hbase]⟩
      · by_cases h3 : iface = "wl_seat"
        · subst h3
          exact ⟨_, _, _, seat_step s n name version, hinv⟩
        · by_cases h4 : iface = "xdg_wm_base"
          · subst h4
            cases hb : s.base_surface with
            | none =>
              exact ⟨_, _, _, wm_base_step_base_none s n name version hb,
                fun hcc => hinv.1 hcc, fun hxx => hinv.2 hxx⟩
            | some base =>
              cases hx : s.xdg_surface with
              | none =>
                exact ⟨_, _, _, wm_base_step_makes_role s n name version base hb hx,
                  fun _ => by simp [hb], fun _ => by simp [hb]⟩
              | some p =>
                exact ⟨_, _, _, wm_base_step_role_exists s n name version p hx,
                  fun hcc => hinv.1 hcc, fun hxx => hinv.2 hxx⟩
          · exact ⟨_, _, _, other_global_step s n name version iface h1 h2 h3 h4, hinv⟩
  | globalRemove => exact ⟨s, n, [], rfl, hinv⟩
  | ping serial => exact ⟨s, n, [Req.pong serial], rfl, hinv⟩
  | configure obj serial =>
    have hxs : s.xdg_surface.isSome := hadm
    obtain ⟨base, hbase⟩ := Option.isSome_iff_exists.mp (hinv.2 hxs)
    cases hbuf : s.buffer with
    | none =>
      exact ⟨_, _, _, configure_step_no_buffer s n obj serial base hbase hbuf,
        fun _ => by simp [hbase], fun _ => by simp [hbase]⟩
    | some buf =>
      exact ⟨_, _, _, configure_step_buffer s n obj serial base buf hbase hbuf,
        fun _ => by simp [hbase], fun _ => by simp [hbase]⟩
  | toplevelClose =>
    exact ⟨{ s with running := false }, n, [], rfl,
      fun hcc => hinv.1 hcc, fun hxx => hinv.2 hxx⟩
  | toplevelOther => exact ⟨s, n, [], rfl, hinv⟩
  | seatCapabilities caps =>
    by_cases hcaps : caps &&& 2 ≠ 0
    · exact ⟨s, n + 1, [Req.getKeyboard n], by simp [step, hcaps], hinv⟩
    · exact ⟨s, n, [], by simp [step, hcaps], hinv⟩
  | seatCapsUnknown => exact ⟨s, n, [], rfl, hinv⟩
  | key serial time key =>
    by_cases hk : key = 1
    · exact ⟨{ s with running := false }, n, [Req.logKey serial time key],
        by simp [step, hk], fun hcc => hinv.1 hcc, fun hxx => hinv.2 hxx⟩
    · exact ⟨s, n, [Req.logKey serial time key], by simp [step, hk], hinv⟩
  | keyboardOther => exact ⟨s, n, [], rfl, hinv⟩

theorem Inv_initState : Inv initState :=
  ⟨fun h => by simp [initState] at h, fun h => by simp [initState] at h⟩

theorem reachable_inv (s : AppState) (n : Nat) (h : Reachable s n) : Inv s := by
  induction h with
  | init => exact Inv_initState
  | step hr hadm hstep ih =>
    rename_i s1 n1 e s2 n2 tr
    obtain ⟨sa, na, tra, hstep2, hinva⟩ := inv_step_total s1 n1 e ih hadm
    rw [hstep] at hstep2
    simp only [Option.some.injEq, Prod.mk.injEq] at hstep2
    obtain ⟨rfl, rfl, rfl⟩ := hstep2
    exact hinva

/-- C10: in every state reachable under the protocol precondition that a
configure event is only delivered once the xdg surface exists, the base
surface is `Some` whenever `configured` is true, is `Some` whenever a
configure event is admissible (so the configure handler's `unwrap` cannot
panic), and every admissible event is handled without any `unwrap`
panicking (`step` returns `some`, covering the `unwrap` in the shm
branch's configured path as well). -/
theorem reachable_no_panic (s : AppState) (n : Nat) (h : Reachable s n) :
    (s.configured = true → s.base_surface.isSome) ∧
    (∀ obj serial, admissible s (Ev.configure obj serial) → s.base_surface.isSome) ∧
    (∀ e, admissible s e → (step s n e).isSome) := by
  have hinv := reachable_inv s n h
  refine ⟨hinv.1, fun obj serial hadm => hinv.2 hadm, fun e hadm => ?_⟩
  obtain ⟨s2, n2, tr, hstep, _⟩ := inv_step_total s n e hinv hadm
  rw [hstep]
  rfl

/-- Witness for C10 at the initial state and a ping event. -/
theorem reachable_no_panic_witness :
    (step initState 0 (Ev.ping 5)).isSome :=
  (reachable_no_panic initState 0 Reachable.init).2.2 (Ev.ping 5) trivial

/-- Whenever a step creates the window role (turns `xdg_surface` from
`none` into `some`), both the base surface and the window base are
present in the post-state. -/
theorem role_creation_guard (s1 : AppState) (m : Nat) (e : Ev) (s2 : AppState)
    (m2 : Nat) (tr : List Req) (hstep : step s1 m e = some (s2, m2, tr))
    (hnone : s1.xdg_surface = none) (hsome : s2.xdg_surface.isSome) :
    s2.base_surface.isSome ∧ s2.wm_base.isSome := by
  cases e with
  | global name iface version =>
    by_cases h1 : iface = "wl_compositor"
    · subst h1
      cases hw : s1.wm_base with
      | none =>
        rw [compositor_step_wm_none s1 m name version hw] at hstep
        simp only [Option.some.injEq, Prod.mk.injEq] at hstep
        obtain ⟨rfl, rfl, rfl⟩ := hstep
        simp [hnone] at hsome
      | some wm =>
        rw [compositor_step_makes_role s1 m name version wm hw hnone] at hstep
        simp only [Option.some.injEq, Prod.mk.injEq] at hstep
        obtain ⟨rfl, rfl, rfl⟩ := hstep
        exact ⟨rfl, by simp [hw]⟩
    · by_cases h2 : iface = "wl_shm"
      · subst h2
        cases hc : s1.configured with
        | false =>
          rw [shm_step_not_configured s1 m name version hc] at hstep
          simp only [Option.some.injEq, Prod.mk.injEq] at hstep
          obtain ⟨rfl, rfl, rfl⟩ := hstep
          simp [hnone] at hsome
        | true =>
          cases hb : s1.base_surface with
          | none =>
            rw [shm_step_stuck s1 m name version hc hb] at hstep
            exact absurd hstep (by simp)
          | some base =>
            rw [shm_step_configured s1 m name version base hc hb] at hstep
            simp only [Option.some.injEq, Prod.mk.injEq] at hstep
            obtain ⟨rfl, rfl, rfl⟩ := hstep
            simp [hnone] at hsome
      · by_cases h3 : iface = "wl_seat"
        · subst h3
          rw [seat_step s1 m name version] at hstep
          simp only [Option.some.injEq, Prod.mk.injEq] at hstep
          obtain ⟨rfl, rfl, rfl⟩ := hstep
          simp [hnone] at hsome
        · by_cases h4 : iface = "xdg_wm_base"
          · subst h4
            cases hb : s1.base_surface with
            | none =>
              rw [wm_base_step_base_none s1 m name version hb] at hstep
              simp only [Option.some.injEq, Prod.mk.injEq] at hstep
              obtain ⟨rfl, rfl, rfl⟩ := hstep
              simp [hnone] at hsome
            | some base =>
              rw [wm_base_step_makes_role s1 m name version base hb hnone] at hstep
              simp only [Option.some.injEq, Prod.mk.injEq] at hstep
              obtain ⟨rfl, rfl, rfl⟩ := hstep
              exact ⟨by simp [hb], rfl⟩
          · rw [other_global_step s1 m name version iface h1 h2 h3 h4] at hstep
            simp only [Option.some.injEq, Prod.mk.injEq] at hstep
            obtain ⟨rfl, rfl, rfl⟩ := hstep
            simp [hnone] at hsome
  | globalRemove =>
    simp only [step, Option.some.injEq, Prod.mk.injEq] at hstep
    obtain ⟨rfl, rfl, rfl⟩ := hstep
    simp [hnone] at hsome
  | ping serial =>
    simp only [step, Option.some.injEq, Prod.mk.injEq] at hstep
    obtain ⟨rfl, rfl, rfl⟩ := hstep
    simp [hnone] at hsome
  | configure obj serial =>
    cases hb : s1.base_surface with
    | none =>
      rw [configure_step_stuck s1 m obj serial hb] at hstep
      exact absurd hstep (by simp)
    | some base =>
      cases hbuf : s1.buffer with
      | none =>
        rw [configure_step_no_buffer s1 m obj serial base hb hbuf] at hstep
        simp only [Option.some.injEq, Prod.mk.injEq] at hstep
        obtain ⟨rfl, rfl, rfl⟩ := hstep
        simp [hnone] at hsome
      | some buf =>
        rw [configure_step_buffer s1 m obj serial base buf hb hbuf] at hstep
        simp only [Option.some.injEq, Prod.mk.injEq] at hstep
        obtain ⟨rfl, rfl, rfl⟩ := hstep
        simp [hnone] at hsome
  | toplevelClose =>
    simp only [step, Option.some.injEq, Prod.mk.injEq] at hstep
    obtain ⟨rfl, rfl, rfl⟩ := hstep
    simp [hnone] at hsome
  | toplevelOther =>
    simp only [step, Option.some.injEq, Prod.mk.injEq] at hstep
    obtain ⟨rfl, rfl, rfl⟩ := hstep
    simp [hnone] at hsome
  | seatCapabilities caps =>
    simp only [step] at hstep
    by_cases hcaps : caps &&& 2 ≠ 0
    · rw [if_pos hcaps] at hstep
      simp only [Option.some.injEq, Prod.mk.injEq] at hstep
      obtain ⟨rfl, rfl, rfl⟩ := hstep
      simp [hnone] at hsome
    · rw [if_neg hcaps] at hstep
      simp only [Option.some.injEq, Prod.mk.injEq] at hstep
      obtain ⟨rfl, rfl, rfl⟩ := hstep
      simp [hnone] at hsome
  | seatCapsUnknown =>
    simp only [step, Option.some.injEq, Prod.mk.injEq] at hstep
    obtain ⟨rfl, rfl, rfl⟩ := hstep
    simp [hnone] at hsome
  | key serial time key =>
    simp only [step] at hstep
    by_cases hk : key = 1
    · rw [if_pos hk] at hstep
      simp only [Option.some.injEq, Prod.mk.injEq] at hstep
      obtain ⟨rfl, rfl, rfl⟩ := hstep
      simp [hnone] at hsome
    · rw [if_neg hk] at hstep
      simp only [Option.some.injEq, Prod.mk.injEq] at hstep
      obtain ⟨rfl, rfl, rfl⟩ := hstep
      simp [hnone] at hsome
  | keyboardOther =>
    simp only [step, Option.some.injEq, Prod.mk.injEq] at hstep
    obtain ⟨rfl, rfl, rfl⟩ := hstep
    simp [hnone] at hsome

/-- C2: from a state with none of surface, window base and window role,
for both arrival orderings of the compositor and window-base
advertisements the dispatched traces are exactly as listed: the first
advertisement alone creates no role, the second one creates the role pair
exactly once (one `getXdgSurface` in the combined trace), the combined
trace contains no attach at all (so the commit ending role creation
carries no buffer), and that commit is the last request of role creation.
Additionally, any step whatsoever that turns `xdg_surface` from `none`
to `some` leaves both prerequisites `Some` in the post-state. -/
theorem role_created_once (s : AppState) (n nc vc nw vw : Nat)
    (hb : s.base_surface = none) (hw : s.wm_base = none)
    (hx : s.xdg_surface = none) :
    (step s n (Ev.global nc "wl_compositor" vc) =
        some ({ s with base_surface := some (n + 1) }, n + 2,
          [Req.bind nc "wl_compositor" vc n, Req.createSurface n (n + 1)]) ∧
      step { s with base_surface := some (n + 1) } (n + 2) (Ev.global nw "xdg_wm_base" vw) =
        some ({ s with base_surface := some (n + 1), wm_base := some (n + 2), xdg_surface := some (n + 3, n + 4) }, n + 5,
          [Req.bind nw "xdg_wm_base" vw (n + 2),
           Req.getXdgSurface (n + 2) (n + 1) (n + 3), Req.getToplevel (n + 3) (n + 4),
           Req.setTitle (n + 4) "receba", Req.setAppId (n + 4) "EstamosAquiDaSilva.org",
           Req.commit (n + 1)]) ∧
      countGetXdgSurface ([Req.bind nc "wl_compositor" vc n, Req.createSurface n (n + 1)] ++
          [Req.bind nw "xdg_wm_base" vw (n + 2),
           Req.getXdgSurface (n + 2) (n + 1) (n + 3), Req.getToplevel (n + 3) (n + 4),
           Req.setTitle (n + 4) "receba", Req.setAppId (n + 4) "EstamosAquiDaSilva.org",
           Req.commit (n + 1)]) = 1 ∧
      countAttach ([Req.bind nc "wl_compositor" vc n, Req.createSurface n (n + 1)] ++
          [Req.bind nw "xdg_wm_base" vw (n + 2),
           Req.getXdgSurface (n + 2) (n + 1) (n + 3), Req.getToplevel (n + 3) (n + 4),
           Req.setTitle (n + 4) "receba", Req.setAppId (n + 4) "EstamosAquiDaSilva.org",
           Req.commit (n + 1)]) = 0 ∧
      ([Req.bind nc "wl_compositor" vc n, Req.createSurface n (n + 1)] ++
          [Req.bind nw "xdg_wm_base" vw (n + 2),
           Req.getXdgSurface (n + 2) (n + 1) (n + 3), Req.getToplevel (n + 3) (n + 4),
           Req.setTitle (n + 4) "receba", Req.setAppId (n + 4) "EstamosAquiDaSilva.org",
           Req.commit (n + 1)]).getLast? = some (Req.commit (n + 1))) ∧
    (step s n (Ev.global nw "xdg_wm_base" vw) =
        some ({ s with wm_base := some n }, n + 1, [Req.bind nw "xdg_wm_base" vw n]) ∧
      step { s with wm_base := some n } (n + 1) (Ev.global nc "wl_compositor" vc) =
        some ({ s with base_surface := some (n + 2), wm_base := some n, xdg_surface := some (n + 3, n + 4) }, n + 5,
          [Req.bind nc "wl_compositor" vc (n + 1), Req.createSurface (n + 1) (n + 2),
           Req.getXdgSurface n (n + 2) (n + 3), Req.getToplevel (n + 3) (n + 4),
           Req.setTitle (n + 4) "receba", Req.setAppId (n + 4) "EstamosAquiDaSilva.org",
           Req.commit (n + 2)]) ∧
      countGetXdgSurface ([Req.bind nw "xdg_wm_base" vw n] ++
          [Req.bind nc "wl_compositor" vc (n + 1), Req.createSurface (n + 1) (n + 2),
           Req.getXdgSurface n (n + 2) (n + 3), Req.getToplevel (n + 3) (n + 4),
           Req.setTitle (n + 4) "receba", Req.setAppId (n + 4) "EstamosAquiDaSilva.org",
           Req.commit (n + 2)]) = 1 ∧
      countAttach ([Req.bind nw "xdg_wm_base" vw n] ++
          [Req.bind nc "wl_compositor" vc (n + 1), Req.createSurface (n + 1) (n + 2),
           Req.getXdgSurface n (n + 2) (n + 3), Req.getToplevel (n + 3) (n + 4),
           Req.setTitle (n + 4) "receba", Req.setAppId (n + 4) "EstamosAquiDaSilva.org",
           Req.commit (n + 2)]) = 0 ∧
      ([Req.bind nw "xdg_wm_base" vw n] ++
          [Req.bind nc "wl_compositor" vc (n + 1), Req.createSurface (n + 1) (n + 2),
           Req.getXdgSurface n (n + 2) (n + 3), Req.getToplevel (n + 3) (n + 4),
           Req.setTitle (n + 4) "receba", Req.setAppId (n + 4) "EstamosAquiDaSilva.org",
           Req.commit (n + 2)]).getLast? = some (Req.commit (n + 2))) ∧
    (∀ (s1 : AppState) (m : Nat) (e : Ev) (s2 : AppState) (m2 : Nat) (tr : List Req),
      step s1 m e = some (s2, m2, tr) → s1.xdg_surface = none → s2.xdg_surface.isSome →
      s2.base_surface.isSome ∧ s2.wm_base.isSome) := by
  refine ⟨⟨compositor_step_wm_none s n nc vc hw, ?_, rfl, rfl, rfl⟩,
          ⟨wm_base_step_base_none s n nw vw hb, ?_, rfl, rfl, rfl⟩,
          fun s1 m e s2 m2 tr => role_creation_guard s1 m e s2 m2 tr⟩
  · exact wm_base_step_makes_role { s with base_surface := some (n + 1) } (n + 2) nw vw
      (n + 1) rfl hx
  · exact compositor_step_makes_role { s with wm_base := some n } (n + 1) nc vc n rfl hx

/-- Witness for C2: the compositor-first ordering from the initial state. -/
theorem role_created_once_witness :
    step initState 0 (Ev.global 1 "wl_compositor" 5) =
      some ({ initState with base_surface := some 1 }, 2,
        [Req.bind 1 "wl_compositor" 5 0, Req.createSurface 0 1]) ∧
    step { initState with base_surface := some 1 } 2 (Ev.global 2 "xdg_wm_base" 3) =
      some ({ initState with base_surface := some 1, wm_base := some 2, xdg_surface := some (3, 4) }, 5,
        [Req.bind 2 "xdg_wm_base" 3 2, Req.getXdgSurface 2 1 3, Req.getToplevel 3 4,
         Req.setTitle 4 "receba", Req.setAppId 4 "EstamosAquiDaSilva.org",
         Req.commit 1]) ∧
    countGetXdgSurface ([Req.bind 1 "wl_compositor" 5 0, Req.createSurface 0 1] ++
        [Req.bind 2 "xdg_wm_base" 3 2, Req.getXdgSurface 2 1 3, Req.getToplevel 3 4,
         Req.setTitle 4 "receba", Req.setAppId 4 "EstamosAquiDaSilva.org",
         Req.commit 1]) = 1 ∧
    countAttach ([Req.bind 1 "wl_compositor" 5 0, Req.createSurface 0 1] ++
        [Req.bind 2 "xdg_wm_base" 3 2, Req.getXdgSurface 2 1 3, Req.getToplevel 3 4,
         Req.setTitle 4 "receba", Req.setAppId 4 "EstamosAquiDaSilva.org",
         Req.commit 1]) = 0 ∧
    ([Req.bind 1 "wl_compositor" 5 0, Req.createSurface 0 1] ++
        [Req.bind 2 "xdg_wm_base" 3 2, Req.getXdgSurface 2 1 3, Req.getToplevel 3 4,
         Req.setTitle 4 "receba", Req.setAppId 4 "EstamosAquiDaSilva.org",
         Req.commit 1]).getLast? = some (Req.commit 1) :=
  (role_created_once initState 0 1 5 2 3 rfl rfl rfl).1

end WaylandWindow
